import Mathlib

/-!
Shallow embedding of the request/commitment lifecycle core of the
`dssd-cloud-api` repository (`cloudapi/models.py`, `cloudapi/services.py`,
`cloudapi/views.py`).

Modelling decisions:
* `Decimal` quantity fields become `ℚ` (exact arithmetic, as for Python's
  `Decimal`); nullable fields (`target_qty`, `amount`) become `Option ℚ`.
* Django rows become records carrying exactly the fields the core reads or
  writes; a possibly missing row is an `Option`.
* A service raising an exception inside `transaction.atomic` aborts the whole
  unit of work, so a failing operation returns `Except.error e` and the caller
  keeps the unmodified state (rollback).
* Python truthiness of `commit.amount` (`if commit.amount:`) is `false` for
  `None` and for `Decimal("0")`, hence `decimalTruthy`.
-/

/-- `RequestStatus` choices of `models.py`. -/
inductive RequestStatus where
  | OPEN
  | RESERVED
  | COMPLETED
deriving DecidableEq, Repr

/-- `CommitmentStatus` choices of `models.py`. -/
inductive CommitmentStatus where
  | ACTIVE
  | FULFILLED
  | CANCELLED
deriving DecidableEq, Repr

/-- The fields of `CollaborationRequest` that the lifecycle core reads or
writes (`models.py`): optional target, the two bookkeeping quantities and the
lifecycle status. -/
structure CollaborationRequest where
  target_qty : Option ℚ
  reserved_qty : ℚ
  fulfilled_qty : ℚ
  status : RequestStatus
deriving DecidableEq, Repr

/-- The fields of `Commitment` that the lifecycle core reads or writes
(`models.py`): the optional pledged amount and the lifecycle status. -/
structure Commitment where
  amount : Option ℚ
  status : CommitmentStatus
deriving DecidableEq, Repr

/-- Errors raised by the services / reported by the views. -/
inductive ApiError where
  | alreadyExecuted
  | relatedRequestNotFound
deriving DecidableEq, Repr

/-- HTTP statuses returned by the commitment view actions. -/
inductive HttpStatus where
  | ok200
  | badRequest400
  | notFound404
deriving DecidableEq, Repr

/-- Python truthiness of an optional `Decimal`: `None` and `0` are falsy. -/
def decimalTruthy (a : Option ℚ) : Bool :=
  match a with
  | none => false
  | some x => decide (x ≠ 0)

/-- `services.recompute_request_status`: recompute the request status from its
quantities, mutating only `status`. Embedded as a function returning the
updated row. -/
def recompute_request_status (req : CollaborationRequest) : CollaborationRequest :=
  match req.target_qty with
  | some target =>
      if req.fulfilled_qty ≥ target then
        { req with status := RequestStatus.COMPLETED }
      else if req.reserved_qty = 0 ∧ req.fulfilled_qty = 0 then
        { req with status := RequestStatus.OPEN }
      else
        { req with status := RequestStatus.RESERVED }
  | none =>
      if req.reserved_qty = 0 ∧ req.fulfilled_qty = 0 then
        { req with status := RequestStatus.OPEN }
      else
        { req with status := RequestStatus.RESERVED }

/-- `services.update_request_on_new_commitment`, given the locked request row:
add the commitment's amount (when truthy) to `reserved_qty`, then recompute the
status. -/
def update_request_on_new_commitment (commit : Commitment) (req : CollaborationRequest) :
    CollaborationRequest :=
  let req1 :=
    if decimalTruthy commit.amount then
      { req with reserved_qty := req.reserved_qty + commit.amount.getD 0 }
    else req
  recompute_request_status req1

/-- `views.CommitmentViewSet.perform_create` followed by
`services.update_request_on_new_commitment`: save the commitment with status
`ACTIVE`, then update the referenced request; if the request row does not
exist the service raises `RelatedRequestNotFoundError` and the transaction
rolls back (no commitment is created). -/
def create_commitment (amount : Option ℚ) (reqRow : Option CollaborationRequest) :
    Except ApiError (Commitment × CollaborationRequest) :=
  match reqRow with
  | none => Except.error ApiError.relatedRequestNotFound
  | some req =>
      let commit : Commitment := { amount := amount, status := CommitmentStatus.ACTIVE }
      Except.ok (commit, update_request_on_new_commitment commit req)

/-- The quantity update performed by `services.execute_commitment_service` on
the locked request row: when `amt := commit.amount or 0` is positive, move it
from `reserved_qty` (clamped at 0) to `fulfilled_qty`. -/
def execQtyUpdate (commit : Commitment) (req : CollaborationRequest) : CollaborationRequest :=
  let amt := commit.amount.getD 0
  if amt > 0 then
    { req with
        reserved_qty := max 0 (req.reserved_qty - amt),
        fulfilled_qty := req.fulfilled_qty + amt }
  else req

/-- `services.execute_commitment_service`: refuse a commitment already
`FULFILLED`, fail when the request row is missing, otherwise apply the
quantity update, mark the commitment `FULFILLED` and recompute the request
status. -/
def execute_commitment_service (commit : Commitment) (reqRow : Option CollaborationRequest) :
    Except ApiError (Commitment × CollaborationRequest) :=
  if commit.status = CommitmentStatus.FULFILLED then
    Except.error ApiError.alreadyExecuted
  else
    match reqRow with
    | none => Except.error ApiError.relatedRequestNotFound
    | some req =>
        Except.ok ({ commit with status := CommitmentStatus.FULFILLED },
          recompute_request_status (execQtyUpdate commit req))

/-- `views.CommitmentViewSet.accept`: 404 when the commitment is missing, 400
when it is not `ACTIVE` or has no request, otherwise set the request's status
to `COMPLETED` directly.  The result triple is (HTTP status, commitment row
after, request row after). -/
def accept_view (commitRow : Option Commitment) (reqRow : Option CollaborationRequest) :
    HttpStatus × Option Commitment × Option CollaborationRequest :=
  match commitRow with
  | none => (HttpStatus.notFound404, none, reqRow)
  | some commit =>
      if commit.status ≠ CommitmentStatus.ACTIVE then
        (HttpStatus.badRequest400, some commit, reqRow)
      else
        match reqRow with
        | none => (HttpStatus.badRequest400, some commit, none)
        | some req =>
            (HttpStatus.ok200, some commit,
             some { req with status := RequestStatus.COMPLETED })

/-- `views.CommitmentViewSet.reject`: 404 when the commitment is missing, 400
when it is not `ACTIVE` or has no request, otherwise set the commitment to
`CANCELLED` and the request's status back to `OPEN`. -/
def reject_view (commitRow : Option Commitment) (reqRow : Option CollaborationRequest) :
    HttpStatus × Option Commitment × Option CollaborationRequest :=
  match commitRow with
  | none => (HttpStatus.notFound404, none, reqRow)
  | some commit =>
      if commit.status ≠ CommitmentStatus.ACTIVE then
        (HttpStatus.badRequest400, some commit, reqRow)
      else
        match reqRow with
        | none => (HttpStatus.badRequest400, some commit, none)
        | some req =>
            (HttpStatus.ok200,
             some { commit with status := CommitmentStatus.CANCELLED },
             some { req with status := RequestStatus.OPEN })

/-- The spec's canonical Status Engine rule, stated from the spec's words
(§4.1): COMPLETED when the target is set and reached by `fulfilled`, else OPEN
when nothing is reserved nor fulfilled, else RESERVED.  Used to compare the
code's `recompute_request_status` against the spec. -/
def specStatus (target : Option ℚ) (reserved fulfilled : ℚ) : RequestStatus :=
  match target with
  | some t =>
      if fulfilled ≥ t then RequestStatus.COMPLETED
      else if reserved = 0 ∧ fulfilled = 0 then RequestStatus.OPEN
      else RequestStatus.RESERVED
  | none =>
      if reserved = 0 ∧ fulfilled = 0 then RequestStatus.OPEN
      else RequestStatus.RESERVED

deriving instance DecidableEq for Except

/-! ### Helper lemmas about the Status Engine -/

/-- The recompute service equals the spec's canonical rule and touches only the
`status` field. -/
theorem recompute_eq (req : CollaborationRequest) :
    recompute_request_status req =
      { req with status := specStatus req.target_qty req.reserved_qty req.fulfilled_qty } := by
  obtain ⟨tq, rq, fq, st⟩ := req
  unfold recompute_request_status specStatus
  cases tq <;> dsimp only <;> split <;> try split
  all_goals rfl

theorem recompute_target (req : CollaborationRequest) :
    (recompute_request_status req).target_qty = req.target_qty := by
  rw [recompute_eq]

theorem recompute_reserved (req : CollaborationRequest) :
    (recompute_request_status req).reserved_qty = req.reserved_qty := by
  rw [recompute_eq]

theorem recompute_fulfilled (req : CollaborationRequest) :
    (recompute_request_status req).fulfilled_qty = req.fulfilled_qty := by
  rw [recompute_eq]

/-! ### C1 -/

/-- C1: `recompute_request_status` is total over every combination of
`(target_qty, reserved_qty, fulfilled_qty)`, writes only the `status` field,
and sets it exactly by the canonical rule `specStatus` (COMPLETED when the
target is set and fulfilled reaches it, else OPEN when nothing is reserved nor
fulfilled, else RESERVED). -/
theorem recompute_status_canonical (req : CollaborationRequest) :
    recompute_request_status req =
      { req with status := specStatus req.target_qty req.reserved_qty req.fulfilled_qty } :=
  recompute_eq req

/-! ### C2 -/

/-- C2 counterexample: creating a `Commitment{amount=3}` on a RESERVED request
succeeds (the commitment is created and the amount is reserved); it does not
fail with `BusinessLogicError`, because `update_request_on_new_commitment`
never checks the request's status. -/
theorem create_on_reserved_succeeds :
    create_commitment (some 3)
      (some { target_qty := some 10, reserved_qty := 5, fulfilled_qty := 0,
              status := RequestStatus.RESERVED })
    = Except.ok ({ amount := some 3, status := CommitmentStatus.ACTIVE },
        { target_qty := some 10, reserved_qty := 8, fulfilled_qty := 0,
          status := RequestStatus.RESERVED }) := by
  norm_num [create_commitment, update_request_on_new_commitment, recompute_request_status,
    decimalTruthy]

/-- C2 amended: `create_commitment` checks no status precondition at all: for
every request row, whatever its status, it succeeds and creates an ACTIVE
commitment carrying the given amount; its only failure is
`RelatedRequestNotFoundError` when the referenced request row is missing, in
which case no commitment is created. -/
theorem create_commitment_no_status_check (amount : Option ℚ) (r : CollaborationRequest) :
    (∃ c r', create_commitment amount (some r) = Except.ok (c, r') ∧
        c.status = CommitmentStatus.ACTIVE ∧ c.amount = amount) ∧
      create_commitment amount none = Except.error ApiError.relatedRequestNotFound := by
  exact ⟨⟨_, _, rfl, rfl, rfl⟩, rfl⟩

/-! ### C6 -/

/-- C6 counterexample: creating a commitment with no amount on a fresh request
(`reserved_qty = fulfilled_qty = 0`) leaves the request's status OPEN — the
Status Engine is invoked and does not yield RESERVED. -/
theorem create_no_amount_leaves_open :
    create_commitment none
      (some { target_qty := some 10, reserved_qty := 0, fulfilled_qty := 0,
              status := RequestStatus.OPEN })
    = Except.ok ({ amount := none, status := CommitmentStatus.ACTIVE },
        { target_qty := some 10, reserved_qty := 0, fulfilled_qty := 0,
          status := RequestStatus.OPEN }) := by
  norm_num [create_commitment, update_request_on_new_commitment, recompute_request_status,
    decimalTruthy]

/-- C6 amended: `update_request_on_new_commitment` does call the Status
Engine: after a new commitment is recorded, the request's status equals the
canonical recompute rule applied to its (updated) quantities — it is RESERVED
only when that rule says so, not unconditionally. -/
theorem create_status_via_recompute (c : Commitment) (r : CollaborationRequest) :
    (update_request_on_new_commitment c r).status =
      specStatus (update_request_on_new_commitment c r).target_qty
        (update_request_on_new_commitment c r).reserved_qty
        (update_request_on_new_commitment c r).fulfilled_qty := by
  unfold update_request_on_new_commitment
  simp only [recompute_eq]

/-! ### C4 -/

/-- C4: executing an ACTIVE commitment whose amount is set and positive
succeeds for every request row, regardless of the request's current status:
the commitment becomes FULFILLED, the request's `reserved_qty` becomes
`max 0 (reserved_qty - amount)`, its `fulfilled_qty` grows by the amount, and
its status is recomputed by the canonical Status Engine rule. -/
theorem execute_positive_amount (c : Commitment) (r : CollaborationRequest) (a : ℚ)
    (hamt : c.amount = some a) (hpos : 0 < a) (hact : c.status = CommitmentStatus.ACTIVE) :
    execute_commitment_service c (some r) =
      Except.ok ({ c with status := CommitmentStatus.FULFILLED },
        { r with
            reserved_qty := max 0 (r.reserved_qty - a),
            fulfilled_qty := r.fulfilled_qty + a,
            status := specStatus r.target_qty (max 0 (r.reserved_qty - a))
              (r.fulfilled_qty + a) }) := by
  have hne : c.status ≠ CommitmentStatus.FULFILLED := by rw [hact]; exact fun h => nomatch h
  unfold execute_commitment_service execQtyUpdate
  rw [if_neg hne]
  simp only [hamt, Option.getD_some, if_pos hpos, recompute_eq]

/-- C4 witness: the end-to-end scenario — after `create Request{target_qty=10}`
and `create Commitment{amount=5}` the request reads
`(reserved=5, fulfilled=0, RESERVED)`; executing the commitment yields the
commitment FULFILLED and the request `(reserved=0, fulfilled=5, RESERVED)`
since `5 < 10`. -/
theorem execute_positive_amount_witness :
    execute_commitment_service { amount := some 5, status := CommitmentStatus.ACTIVE }
      (some { target_qty := some 10, reserved_qty := 5, fulfilled_qty := 0,
              status := RequestStatus.RESERVED })
    = Except.ok ({ amount := some 5, status := CommitmentStatus.FULFILLED },
        { target_qty := some 10, reserved_qty := 0, fulfilled_qty := 5,
          status := RequestStatus.RESERVED }) := by
  have h := execute_positive_amount
    { amount := some 5, status := CommitmentStatus.ACTIVE }
    { target_qty := some 10, reserved_qty := 5, fulfilled_qty := 0,
      status := RequestStatus.RESERVED }
    5 rfl (by norm_num) rfl
  rw [h]
  norm_num [specStatus]

/-! ### C5 -/

/-- C5: executing a commitment already FULFILLED fails with
`CommitmentAlreadyExecutedError` before touching any row; since the service
raises inside the atomic block before any write, the commitment's status and
the request's quantities and status are unchanged (the error return carries no
state change). -/
theorem execute_already_fulfilled_errors (c : Commitment)
    (reqRow : Option CollaborationRequest) (h : c.status = CommitmentStatus.FULFILLED) :
    execute_commitment_service c reqRow = Except.error ApiError.alreadyExecuted := by
  unfold execute_commitment_service
  rw [if_pos h]

/-- C5 witness: a concrete second execute on a FULFILLED commitment fails. -/
theorem execute_already_fulfilled_errors_witness :
    execute_commitment_service { amount := some 5, status := CommitmentStatus.FULFILLED }
      (some { target_qty := some 10, reserved_qty := 0, fulfilled_qty := 5,
              status := RequestStatus.RESERVED })
    = Except.error ApiError.alreadyExecuted :=
  execute_already_fulfilled_errors _ _ rfl

/-! ### C10 -/

/-- C10: executing a not-yet-FULFILLED commitment whose amount is `None` or
`0` still sets the commitment to FULFILLED and recomputes the request's status
with the Status Engine, while leaving `reserved_qty` and `fulfilled_qty` (and
`target_qty`) completely unchanged. -/
theorem execute_no_amount (c : Commitment) (r : CollaborationRequest)
    (hamt : c.amount = none ∨ c.amount = some 0)
    (h : c.status ≠ CommitmentStatus.FULFILLED) :
    execute_commitment_service c (some r) =
      Except.ok ({ c with status := CommitmentStatus.FULFILLED },
        { r with status := specStatus r.target_qty r.reserved_qty r.fulfilled_qty }) := by
  unfold execute_commitment_service execQtyUpdate
  rw [if_neg h]
  have hz : c.amount.getD 0 = 0 := by rcases hamt with h' | h' <;> simp [h']
  simp only [hz, gt_iff_lt, lt_irrefl, if_false, recompute_eq]

/-- C10 witness: executing an ACTIVE commitment without an amount on a request
with quantities `(reserved=5, fulfilled=0)` leaves both quantities unchanged
and only recomputes the status (RESERVED here). -/
theorem execute_no_amount_witness :
    execute_commitment_service { amount := none, status := CommitmentStatus.ACTIVE }
      (some { target_qty := some 10, reserved_qty := 5, fulfilled_qty := 0,
              status := RequestStatus.COMPLETED })
    = Except.ok ({ amount := none, status := CommitmentStatus.FULFILLED },
        { target_qty := some 10, reserved_qty := 5, fulfilled_qty := 0,
          status := RequestStatus.RESERVED }) := by
  have h := execute_no_amount
    { amount := none, status := CommitmentStatus.ACTIVE }
    { target_qty := some 10, reserved_qty := 5, fulfilled_qty := 0,
      status := RequestStatus.COMPLETED }
    (Or.inl rfl) (fun hc => nomatch hc)
  rw [h]
  norm_num [specStatus]

/-! ### C8 -/

/-- C8: `accept` on a missing commitment returns 404 touching nothing;
`accept` on an existing commitment sets the associated request's status to
COMPLETED directly when the commitment is ACTIVE — leaving the commitment row
and the request's quantities untouched — and returns 400 changing nothing when
the commitment is not ACTIVE. -/
theorem accept_behavior (c : Commitment) (r : CollaborationRequest)
    (ro : Option CollaborationRequest) :
    accept_view none ro = (HttpStatus.notFound404, none, ro) ∧
    accept_view (some c) (some r) =
      (if c.status = CommitmentStatus.ACTIVE then
        (HttpStatus.ok200, some c, some { r with status := RequestStatus.COMPLETED })
      else (HttpStatus.badRequest400, some c, some r)) := by
  refine ⟨rfl, ?_⟩
  unfold accept_view
  by_cases h : c.status = CommitmentStatus.ACTIVE <;> simp [h]

/-! ### C9 -/

/-- C9: `reject` on an ACTIVE commitment always returns 200 with the
commitment CANCELLED and the parent request's status reset to OPEN, for every
prior request status and every value of `reserved_qty`, while `reserved_qty`,
`fulfilled_qty` and `target_qty` stay exactly as they were (status reset only,
no quantity rollback). -/
theorem reject_active (c : Commitment) (r : CollaborationRequest)
    (h : c.status = CommitmentStatus.ACTIVE) :
    reject_view (some c) (some r) =
      (HttpStatus.ok200, some { c with status := CommitmentStatus.CANCELLED },
       some { r with status := RequestStatus.OPEN }) := by
  unfold reject_view
  simp [h]

/-- C9 witness: rejecting an ACTIVE commitment on a COMPLETED request with
nonzero quantities resets both statuses and keeps the quantities. -/
theorem reject_active_witness :
    reject_view (some { amount := some 5, status := CommitmentStatus.ACTIVE })
      (some { target_qty := some 10, reserved_qty := 5, fulfilled_qty := 2,
              status := RequestStatus.COMPLETED })
    = (HttpStatus.ok200,
       some { amount := some 5, status := CommitmentStatus.CANCELLED },
       some { target_qty := some 10, reserved_qty := 5, fulfilled_qty := 2,
              status := RequestStatus.OPEN }) :=
  reject_active _ _ rfl

/-! ### C7 -/

/-- C7 counterexample: a CANCELLED commitment can become FULFILLED — executing
a CANCELLED commitment with amount 5 succeeds, marks it FULFILLED and moves
the amount, because `execute_commitment_service` only rejects commitments that
are already FULFILLED. -/
theorem execute_cancelled_becomes_fulfilled :
    execute_commitment_service { amount := some 5, status := CommitmentStatus.CANCELLED }
      (some { target_qty := some 10, reserved_qty := 5, fulfilled_qty := 0,
              status := RequestStatus.RESERVED })
    = Except.ok ({ amount := some 5, status := CommitmentStatus.FULFILLED },
        { target_qty := some 10, reserved_qty := 0, fulfilled_qty := 5,
          status := RequestStatus.RESERVED }) := by
  norm_num [execute_commitment_service, execQtyUpdate, recompute_request_status]
  exact fun h => nomatch h

/-- C7 amended: FULFILLED is terminal — accept and reject refuse it with 400
changing nothing and execute fails with `CommitmentAlreadyExecutedError` — and
CANCELLED is terminal for accept and reject only: execute on a CANCELLED
commitment is not refused; it succeeds and sets the commitment to FULFILLED
(applying the usual quantity update and status recompute). -/
theorem terminal_status_behavior (c : Commitment) (r : CollaborationRequest)
    (h : c.status ≠ CommitmentStatus.ACTIVE) :
    accept_view (some c) (some r) = (HttpStatus.badRequest400, some c, some r) ∧
    reject_view (some c) (some r) = (HttpStatus.badRequest400, some c, some r) ∧
    execute_commitment_service c (some r) =
      (if c.status = CommitmentStatus.FULFILLED then
        Except.error ApiError.alreadyExecuted
      else
        Except.ok ({ c with status := CommitmentStatus.FULFILLED },
          recompute_request_status (execQtyUpdate c r))) := by
  refine ⟨?_, ?_, ?_⟩
  · unfold accept_view; simp [h]
  · unfold reject_view; simp [h]
  · unfold execute_commitment_service
    by_cases hf : c.status = CommitmentStatus.FULFILLED <;> simp [hf]

/-- C7 witness: the non-ACTIVE behavior at a concrete CANCELLED commitment. -/
theorem terminal_status_behavior_witness :
    accept_view (some { amount := some 5, status := CommitmentStatus.CANCELLED })
      (some { target_qty := some 10, reserved_qty := 5, fulfilled_qty := 0,
              status := RequestStatus.RESERVED })
      = (HttpStatus.badRequest400,
         some { amount := some 5, status := CommitmentStatus.CANCELLED },
         some { target_qty := some 10, reserved_qty := 5, fulfilled_qty := 0,
                status := RequestStatus.RESERVED }) ∧
    reject_view (some { amount := some 5, status := CommitmentStatus.CANCELLED })
      (some { target_qty := some 10, reserved_qty := 5, fulfilled_qty := 0,
              status := RequestStatus.RESERVED })
      = (HttpStatus.badRequest400,
         some { amount := some 5, status := CommitmentStatus.CANCELLED },
         some { target_qty := some 10, reserved_qty := 5, fulfilled_qty := 0,
                status := RequestStatus.RESERVED }) ∧
    execute_commitment_service { amount := some 5, status := CommitmentStatus.CANCELLED }
      (some { target_qty := some 10, reserved_qty := 5, fulfilled_qty := 0,
              status := RequestStatus.RESERVED })
      = (if ({ amount := some 5, status := CommitmentStatus.CANCELLED } :
            Commitment).status = CommitmentStatus.FULFILLED then
          Except.error ApiError.alreadyExecuted
        else
          Except.ok ({ amount := some 5, status := CommitmentStatus.FULFILLED },
            recompute_request_status
              (execQtyUpdate { amount := some 5, status := CommitmentStatus.CANCELLED }
                { target_qty := some 10, reserved_qty := 5, fulfilled_qty := 0,
                  status := RequestStatus.RESERVED }))) :=
  terminal_status_behavior
    { amount := some 5, status := CommitmentStatus.CANCELLED }
    { target_qty := some 10, reserved_qty := 5, fulfilled_qty := 0,
      status := RequestStatus.RESERVED }
    (by decide)

/-! ### C3 -/

/-- C3 counterexample: on a request with `target_qty = 10` and
`reserved_qty = 8`, creating a commitment with `amount = 5` does not fail with
`ValidationError`: it succeeds and drives `reserved_qty` to `13 > 10`, so the
upper bound `reserved_qty ≤ target_qty` is not enforced and does not hold. -/
theorem create_overshoots_target :
    create_commitment (some 5)
      (some { target_qty := some 10, reserved_qty := 8, fulfilled_qty := 0,
              status := RequestStatus.RESERVED })
    = Except.ok ({ amount := some 5, status := CommitmentStatus.ACTIVE },
        { target_qty := some 10, reserved_qty := 13, fulfilled_qty := 0,
          status := RequestStatus.RESERVED }) := by
  norm_num [create_commitment, update_request_on_new_commitment, recompute_request_status,
    decimalTruthy]

/-- One triggering operation of the Commitment Lifecycle Controller aimed at
the request row under consideration. -/
inductive Op where
  | create (amount : Option ℚ)
  | accept
  | reject
  | execute
deriving DecidableEq, Repr

/-- Apply one operation to a (commitment, request) pair.  A successful
operation yields the updated rows; a failing one rolls its transaction back,
leaving the state unchanged.  `create` swaps in the newly created commitment,
so sequences over this single slot reproduce every sequence of request-row
updates that many commitments could produce. -/
def applyOp (op : Op) (s : Commitment × CollaborationRequest) :
    Commitment × CollaborationRequest :=
  match op with
  | Op.create a =>
      match create_commitment a (some s.2) with
      | Except.ok s' => s'
      | Except.error _ => s
  | Op.accept =>
      match accept_view (some s.1) (some s.2) with
      | (_, some c, some r) => (c, r)
      | _ => s
  | Op.reject =>
      match reject_view (some s.1) (some s.2) with
      | (_, some c, some r) => (c, r)
      | _ => s
  | Op.execute =>
      match execute_commitment_service s.1 (some s.2) with
      | Except.ok s' => s'
      | Except.error _ => s

/-- A commitment amount admitted by the serializer
(`MinValueValidator(0)` on `Commitment.amount`): absent or nonnegative. -/
def amountOk (a : Option ℚ) : Prop :=
  match a with
  | none => True
  | some x => 0 ≤ x

/-- An operation whose serializer-validated input is admissible. -/
def opOk (op : Op) : Prop :=
  match op with
  | Op.create a => amountOk a
  | _ => True

/-- The quantity invariant the code maintains: the commitment's amount is
admissible and the request's two quantities are nonnegative. -/
def LifecycleInv (s : Commitment × CollaborationRequest) : Prop :=
  amountOk s.1.amount ∧ 0 ≤ s.2.reserved_qty ∧ 0 ≤ s.2.fulfilled_qty

theorem amountOk_getD (a : Option ℚ) (h : amountOk a) : 0 ≤ a.getD 0 := by
  cases a with
  | none => exact le_refl 0
  | some x => exact h

theorem update_request_reserved (c : Commitment) (r : CollaborationRequest) :
    (update_request_on_new_commitment c r).reserved_qty =
      if decimalTruthy c.amount then r.reserved_qty + c.amount.getD 0
      else r.reserved_qty := by
  simp only [update_request_on_new_commitment, recompute_reserved]
  split <;> rfl

theorem update_request_fulfilled (c : Commitment) (r : CollaborationRequest) :
    (update_request_on_new_commitment c r).fulfilled_qty = r.fulfilled_qty := by
  simp only [update_request_on_new_commitment, recompute_fulfilled]
  split <;> rfl

theorem applyOp_preserves_inv (op : Op) (s : Commitment × CollaborationRequest)
    (hs : LifecycleInv s) (hop : opOk op) : LifecycleInv (applyOp op s) := by
  obtain ⟨hamt, hres, hful⟩ := hs
  cases op with
  | create a =>
      simp only [applyOp, create_commitment]
      refine ⟨hop, ?_, ?_⟩
      · rw [update_request_reserved]
        split
        · exact add_nonneg hres (amountOk_getD a hop)
        · exact hres
      · rw [update_request_fulfilled]
        exact hful
  | accept =>
      simp only [applyOp, accept_view]
      by_cases h : s.1.status = CommitmentStatus.ACTIVE
      · simp only [h]
        simp
        exact ⟨hamt, hres, hful⟩
      · simp only [if_pos h]
        simp [h]
        exact ⟨hamt, hres, hful⟩
  | reject =>
      simp only [applyOp, reject_view]
      by_cases h : s.1.status = CommitmentStatus.ACTIVE
      · simp [h]
        exact ⟨hamt, hres, hful⟩
      · simp [h]
        exact ⟨hamt, hres, hful⟩
  | execute =>
      by_cases hf : s.1.status = CommitmentStatus.FULFILLED
      · simp only [applyOp, execute_commitment_service, if_pos hf]
        exact ⟨hamt, hres, hful⟩
      · simp only [applyOp, execute_commitment_service, if_neg hf]
        refine ⟨hamt, ?_, ?_⟩
        · rw [recompute_reserved]
          unfold execQtyUpdate
          dsimp only
          split
          · exact le_max_left 0 _
          · exact hres
        · rw [recompute_fulfilled]
          unfold execQtyUpdate
          dsimp only
          split
          · exact add_nonneg hful (amountOk_getD s.1.amount hamt)
          · exact hful

/-- C3 amended: along every sequence of controller operations with
serializer-admissible inputs, every request keeps `0 ≤ reserved_qty` and
`0 ≤ fulfilled_qty`.  The target upper bound of the original claim is not
enforced anywhere: `create_commitment` adds the amount unconditionally (no
ValidationError), so `reserved_qty` (and `fulfilled_qty`) may exceed
`target_qty`. -/
theorem quantities_nonneg_invariant (ops : List Op) (s : Commitment × CollaborationRequest)
    (hs : LifecycleInv s) (hops : ∀ op ∈ ops, opOk op) :
    LifecycleInv (ops.foldl (fun t op => applyOp op t) s) := by
  induction ops generalizing s with
  | nil => exact hs
  | cons op rest ih =>
      exact ih (applyOp op s)
        (applyOp_preserves_inv op s hs (hops op (List.mem_cons_self op rest)))
        (fun o ho => hops o (List.mem_cons_of_mem op ho))

/-- C3 witness: a concrete two-operation run (create a commitment of 5, then
execute it) from a fresh request keeps both quantities nonnegative. -/
theorem quantities_nonneg_invariant_witness :
    LifecycleInv (List.foldl (fun t op => applyOp op t)
      ({ amount := none, status := CommitmentStatus.ACTIVE },
       { target_qty := some 10, reserved_qty := 0, fulfilled_qty := 0,
         status := RequestStatus.OPEN })
      [Op.create (some 5), Op.execute]) :=
  quantities_nonneg_invariant [Op.create (some 5), Op.execute] _
    ⟨trivial, le_refl 0, le_refl 0⟩
    (by
      intro op hop
      rcases List.mem_cons.mp hop with h | h
      · subst h
        show amountOk (some 5)
        norm_num [amountOk]
      · rcases List.mem_singleton.mp h with rfl
        exact trivial)
